import Mathlib

/-!
Shallow embedding of `coinglass_mcp.py` (a proxy exposing CoinGlass GET
endpoints as tools) and proofs about its request-forwarding and validation
logic.

Modelling conventions:
* Parsed JSON values are an inductive `JsonVal`; JSON numbers are modelled
  as integers (the responses relevant here carry integer or string codes).
* Python truthiness and equality are modelled where the source relies on
  them: `os.getenv` returning `None` or `""` is falsy, and the membership
  test `x in (0, "0")` uses Python equality, under which the boolean
  `False` compares equal to the integer `0`.
* The network layer is a function `Upstream : Request → HttpResponse`; the
  `json` field of `HttpResponse` is the result of parsing its `text` body
  (`none` when the body is not valid JSON).  A call's observable behaviour
  is a `CallResult`: the list of outbound requests issued plus the
  returned value or raised error.
* Each distinct `raise` site of the source is a distinct `CgError`
  constructor, matching the spec's error taxonomy: `configError`
  (Configuration Error from `_get_api_key`), `validationError`
  (Validation Error from `_validate_interval`), `httpStatusError`
  (Transport Error from `raise_for_status`), `jsonDecodeError`
  (Transport Error: malformed payload from `resp.json()`), `apiError`
  (Application Error from the `code` envelope check).
-/

namespace Coinglass

/-- A JSON value as produced by Python's `json` parsing (numbers restricted
to integers). -/
inductive JsonVal where
  | null : JsonVal
  | bool : Bool → JsonVal
  | int : Int → JsonVal
  | str : String → JsonVal
  | arr : List JsonVal → JsonVal
  | obj : List (String × JsonVal) → JsonVal
  deriving Repr

/-- Python dict lookup `d.get(k)` on an association list (keys unique in a
parsed JSON object; first match). -/
def dictGet (d : List (String × JsonVal)) (k : String) : Option JsonVal :=
  match d with
  | [] => none
  | (k2, v) :: rest => if k2 = k then some v else dictGet rest k

/-- Python equality of a parsed JSON value with the int literal `0`.
In Python, `False == 0` holds (bool is a subtype of int), so a JSON
`false` also compares equal to `0`. -/
def pyEqIntZero : JsonVal → Bool
  | .int n => n == 0
  | .bool b => b == false
  | _ => false

/-- Python equality of a parsed JSON value with the string literal `"0"`. -/
def pyEqStrZero : JsonVal → Bool
  | .str s => s == "0"
  | _ => false

/-- Python's `str.startswith`. -/
def pyStartsWith (s pre : String) : Bool :=
  pre.data.isPrefixOf s.data

/-- `BASE_URL = "https://open-api-v4.coinglass.com"` (line 12). -/
def BASE_URL : String := "https://open-api-v4.coinglass.com"

/-- `API_KEY_ENV = "COINGLASS_API_KEY"` (line 13). -/
def API_KEY_ENV : String := "COINGLASS_API_KEY"

/-- `HOBBYIST_DISALLOWED_INTERVALS` (line 17). -/
def HOBBYIST_DISALLOWED_INTERVALS : List String :=
  ["1m", "3m", "5m", "15m", "30m", "1h"]

/-- Process-wide configuration: the value of the `COINGLASS_API_KEY`
environment variable (`none` when unset). -/
structure Env where
  apiKey : Option String

/-- The distinct failure modes, one per `raise` site of the source. -/
inductive CgError where
  | configError : CgError
  | validationError : CgError
  | httpStatusError (status : Nat) (text : String) : CgError
  | jsonDecodeError : CgError
  | apiError (code : JsonVal) (msg : Option JsonVal) : CgError
  deriving Repr

/-- The message of the Transport Error raised on a non-2xx status
(line 61-63): an f-string carrying the numeric status and raw body. -/
def httpErrorMessage (status : Nat) (text : String) : String :=
  "HTTP error from CoinGlass: " ++ toString status ++ " " ++ text

/-- An outbound HTTP GET request as issued by `client.get` (line 56):
URL, query params and the `CG-API-KEY` header value. -/
structure Request where
  url : String
  params : Option (List (String × JsonVal))
  apiKey : String

/-- An upstream HTTP response: status code, raw body text, and the result
of parsing the body as JSON (`none` when parsing fails). -/
structure HttpResponse where
  status : Nat
  text : String
  json : Option JsonVal

/-- The (mocked) network: what response each request receives. -/
def Upstream : Type := Request → HttpResponse

/-- Observable behaviour of one tool call: the outbound requests issued,
and the returned JSON value or raised error. -/
structure CallResult where
  requests : List Request
  outcome : Except CgError JsonVal

/-- `_get_api_key` (lines 20-28): `os.getenv` followed by a Python
truthiness check, so both an unset and an empty variable raise. -/
def get_api_key (env : Env) : Except CgError String :=
  match env.apiKey with
  | none => .error .configError
  | some key => if key = "" then .error .configError else .ok key

/-- `_validate_interval` (lines 31-39): `if not interval: return` lets
`None` and the empty string through; then membership in the disallowed
set raises `ValueError`. -/
def validate_interval (interval : Option String) : Except CgError Unit :=
  match interval with
  | none => .ok ()
  | some i =>
    if i = "" then .ok ()
    else if HOBBYIST_DISALLOWED_INTERVALS.contains i then
      .error .validationError
    else .ok ()

/-- Lines 58-72 of `_coinglass_get`: `raise_for_status` (httpx raises for
any status outside 200-299), `resp.json()`, then the envelope check
`isinstance(data, dict) and "code" in data and data.get("code") not in (0, "0")`. -/
def processResponse (resp : HttpResponse) : Except CgError JsonVal :=
  if resp.status < 200 ∨ 300 ≤ resp.status then
    .error (.httpStatusError resp.status resp.text)
  else
    match resp.json with
    | none => .error .jsonDecodeError
    | some data =>
      match data with
      | .obj kvs =>
        match dictGet kvs "code" with
        | none => .ok data
        | some c =>
          if pyEqIntZero c || pyEqStrZero c then .ok data
          else .error (.apiError c (dictGet kvs "msg"))
      | _ => .ok data

/-- `_coinglass_get` (lines 42-72): normalize the path to start with `/`,
build the URL, resolve the API key (raising before any request when it is
missing), issue exactly one GET, and classify the response. -/
def coinglass_get (env : Env) (upstream : Upstream) (path : String)
    (params : Option (List (String × JsonVal))) : CallResult :=
  let path2 := if pyStartsWith path "/" then path else "/" ++ path
  let url := BASE_URL ++ path2
  match get_api_key env with
  | .error e => { requests := [], outcome := .error e }
  | .ok key =>
    let req : Request := { url := url, params := params, apiKey := key }
    let resp := upstream req
    { requests := [req], outcome := processResponse resp }

/-- `coinglass_raw_get` (lines 79-109): `params = params or {}`, validate
`params.get("interval")` when it is a string, then forward. -/
def coinglass_raw_get (env : Env) (upstream : Upstream) (path : String)
    (params : Option (List (String × JsonVal))) : CallResult :=
  let ps := match params with | none => [] | some d => d
  match dictGet ps "interval" with
  | some (.str s) =>
    match validate_interval (some s) with
    | .error e => { requests := [], outcome := .error e }
    | .ok _ => coinglass_get env upstream path (some ps)
  | _ => coinglass_get env upstream path (some ps)

/-- `futures_open_interest_exchange_list` (lines 117-129): the symbol is
passed through verbatim as the `symbol` query parameter. -/
def futures_open_interest_exchange_list (env : Env) (upstream : Upstream)
    (symbol : String := "BTCUSDT") : CallResult :=
  coinglass_get env upstream "/api/futures/open-interest/exchange-list"
    (some [("symbol", .str symbol)])

/-- `funding_rate_exchange_list` (lines 132-144). -/
def funding_rate_exchange_list (env : Env) (upstream : Upstream)
    (symbol : String := "BTCUSDT") : CallResult :=
  coinglass_get env upstream
    "/api/futures/funding-rate/accumulated-exchange-list"
    (some [("symbol", .str symbol)])

/-- `btc_etf_flows_history` (lines 147-162): validate the interval, then
forward with `{"interval": interval}`. -/
def btc_etf_flows_history (env : Env) (upstream : Upstream)
    (interval : String := "1d") : CallResult :=
  match validate_interval (some interval) with
  | .error e => { requests := [], outcome := .error e }
  | .ok _ =>
    coinglass_get env upstream "/api/etf/bitcoin/flow-history"
      (some [("interval", .str interval)])

/-- A mocked upstream returning the same response to every request. -/
def constUpstream (resp : HttpResponse) : Upstream := fun _ => resp

/-- Concrete configurations and responses used as test fixtures. -/
def envNoKey : Env := { apiKey := none }

def envEmptyKey : Env := { apiKey := some "" }

def envWithKey : Env := { apiKey := some "testkey" }

def respOk : HttpResponse :=
  { status := 200, text := "\x7b\x7d", json := some (.obj []) }

def up200 : Upstream := constUpstream respOk

/-! ### Helper lemmas -/

theorem startsWith_slash_append (s : String) :
    pyStartsWith ("/" ++ s) "/" = true := by
  simp [pyStartsWith, String.data_append, List.isPrefixOf]

theorem processResponse_ne_validationError (resp : HttpResponse) :
    processResponse resp ≠ .error .validationError := by
  unfold processResponse
  split
  · intro h
    cases h
  · split
    · intro h
      cases h
    · split
      · split
        · intro h
          cases h
        · split
          · intro h
            cases h
          · intro h
            cases h
      all_goals intro h; cases h

theorem coinglass_get_noKey (env : Env) (up : Upstream) (path : String)
    (params : Option (List (String × JsonVal)))
    (h : env.apiKey = none ∨ env.apiKey = some "") :
    coinglass_get env up path params =
      { requests := [], outcome := .error .configError } := by
  rcases h with h | h <;> simp [coinglass_get, get_api_key, h]

theorem coinglass_get_withKey (env : Env) (up : Upstream) (k : String)
    (hkey : env.apiKey = some k) (hk : k ≠ "") (path : String)
    (params : Option (List (String × JsonVal))) :
    coinglass_get env up path params =
      let req : Request :=
        { url := BASE_URL ++ (if pyStartsWith path "/" then path
            else "/" ++ path),
          params := params, apiKey := k }
      { requests := [req], outcome := processResponse (up req) } := by
  simp [coinglass_get, get_api_key, hkey, hk]

theorem validate_interval_cases (i : Option String) :
    validate_interval i = .ok () ∨
    validate_interval i = .error .validationError := by
  cases i with
  | none => exact Or.inl rfl
  | some s =>
    by_cases hs : s = ""
    · exact Or.inl (by simp [validate_interval, hs])
    · by_cases hc : s ∈ HOBBYIST_DISALLOWED_INTERVALS
      · exact Or.inr (by simp [validate_interval, hs, hc])
      · exact Or.inl (by simp [validate_interval, hs, hc])

/-! ### Claim theorems -/

/-- C9: in `coinglass_raw_get`, interval validation runs before API-key
resolution: with a disallowed string interval in `params`, the call fails
with a Validation Error (not a Configuration Error) even when the API key
environment variable is unset, and no network request is issued. -/
theorem raw_get_validation_precedes_key (env : Env) (up : Upstream)
    (path : String) (ps : List (String × JsonVal)) (s : String)
    (hunset : env.apiKey = none)
    (hint : dictGet ps "interval" = some (.str s))
    (hdis : HOBBYIST_DISALLOWED_INTERVALS.contains s = true) :
    coinglass_raw_get env up path (some ps) =
      { requests := [], outcome := .error .validationError } := by
  have hne : s ≠ "" := by
    intro h
    subst h
    exact absurd hdis (by decide)
  have hmem : s ∈ HOBBYIST_DISALLOWED_INTERVALS := by simpa using hdis
  simp [coinglass_raw_get, hint, validate_interval, hne, hmem]

/-- Witness for C9 at interval `"1m"` with the key unset. -/
theorem raw_get_validation_precedes_key_witness :
    coinglass_raw_get envNoKey up200 "/api/index/fear-greed-history"
        (some [("interval", JsonVal.str "1m")]) =
      { requests := [], outcome := .error .validationError } :=
  raw_get_validation_precedes_key envNoKey up200
    "/api/index/fear-greed-history" [("interval", JsonVal.str "1m")] "1m"
    rfl rfl (by decide)

/-- C10: the empty string passes interval validation
(`if not interval: return`), so `btc_etf_flows_history` called with
interval `""` raises no Validation Error and issues one request whose
query parameters map `interval` to the empty string. -/
theorem empty_interval_passes_validation (env : Env) (up : Upstream)
    (k : String) (hkey : env.apiKey = some k) (hk : k ≠ "") :
    validate_interval (some "") = .ok () ∧
    (btc_etf_flows_history env up "").requests =
      [{ url := BASE_URL ++ "/api/etf/bitcoin/flow-history",
         params := some [("interval", JsonVal.str "")], apiKey := k }] ∧
    ∀ e, (btc_etf_flows_history env up "").outcome = .error e →
      e ≠ .validationError := by
  have hcall : btc_etf_flows_history env up "" =
      coinglass_get env up "/api/etf/bitcoin/flow-history"
        (some [("interval", JsonVal.str "")]) := by
    simp [btc_etf_flows_history, validate_interval]
  rw [coinglass_get_withKey env up k hkey hk] at hcall
  have hpre : pyStartsWith "/api/etf/bitcoin/flow-history" "/" = true := by
    decide
  refine ⟨rfl, ?_, ?_⟩
  · rw [hcall]
    simp [hpre]
  · intro e he hev
    subst hev
    rw [hcall] at he
    exact processResponse_ne_validationError _ he

/-- Witness for C10 with a configured key. -/
theorem empty_interval_passes_validation_witness :
    validate_interval (some "") = .ok () ∧
    (btc_etf_flows_history envWithKey up200 "").requests =
      [{ url := BASE_URL ++ "/api/etf/bitcoin/flow-history",
         params := some [("interval", JsonVal.str "")],
         apiKey := "testkey" }] ∧
    ∀ e, (btc_etf_flows_history envWithKey up200 "").outcome = .error e →
      e ≠ .validationError :=
  empty_interval_passes_validation envWithKey up200 "testkey" rfl
    (by decide)

/-- C2: when `params` maps `interval` to a string in the disallowed set,
`coinglass_raw_get` fails with a Validation Error and issues no request;
when the string is outside the set, validation passes and (with a
configured key) exactly one request is issued. -/
theorem raw_get_interval_gate (env : Env) (up : Upstream) (path : String)
    (ps : List (String × JsonVal)) (s : String)
    (hint : dictGet ps "interval" = some (.str s)) :
    (HOBBYIST_DISALLOWED_INTERVALS.contains s = true →
      coinglass_raw_get env up path (some ps) =
        { requests := [], outcome := .error .validationError }) ∧
    (HOBBYIST_DISALLOWED_INTERVALS.contains s = false →
      ∀ k, env.apiKey = some k → k ≠ "" →
        (coinglass_raw_get env up path (some ps)).requests.length = 1) := by
  constructor
  · intro hdis
    have hne : s ≠ "" := by
      intro h
      subst h
      exact absurd hdis (by decide)
    have hmem : s ∈ HOBBYIST_DISALLOWED_INTERVALS := by simpa using hdis
    simp [coinglass_raw_get, hint, validate_interval, hne, hmem]
  · intro hout k hkey hk
    have hnmem : s ∉ HOBBYIST_DISALLOWED_INTERVALS := by simpa using hout
    have hok : validate_interval (some s) = .ok () := by
      by_cases hs : s = "" <;> simp [validate_interval, hs, hnmem]
    simp [coinglass_raw_get, hint, hok,
      coinglass_get_withKey env up k hkey hk]

/-- Witness for C2: `"1m"` is rejected with no request, `"4h"` passes and
one request is issued. -/
theorem raw_get_interval_gate_witness :
    coinglass_raw_get envWithKey up200 "/api/futures/open-interest/history"
        (some [("interval", JsonVal.str "1m")]) =
      { requests := [], outcome := .error .validationError } ∧
    (coinglass_raw_get envWithKey up200 "/api/futures/open-interest/history"
        (some [("interval", JsonVal.str "4h")])).requests.length = 1 :=
  ⟨(raw_get_interval_gate envWithKey up200
      "/api/futures/open-interest/history"
      [("interval", JsonVal.str "1m")] "1m" rfl).1 (by decide),
   (raw_get_interval_gate envWithKey up200
      "/api/futures/open-interest/history"
      [("interval", JsonVal.str "4h")] "4h" rfl).2 (by decide)
     "testkey" rfl (by decide)⟩

/-- C1 counterexample: with the key unset but a disallowed interval among
the params, `coinglass_raw_get` fails with a Validation Error, not the
claimed Configuration Error (the claim asserts a Configuration Error
regardless of the path and params supplied). -/
theorem no_key_config_error_counterexample :
    (coinglass_raw_get envNoKey up200 "/api/index/fear-greed-history"
        (some [("interval", JsonVal.str "1m")])).outcome =
      .error .validationError ∧
    CgError.validationError ≠ CgError.configError := by
  constructor
  · rfl
  · intro h
    cases h

/-- C1 (amended): with the API key unset or empty, every tool call issues
zero network requests and fails; the failure is a Configuration Error
except when interval validation rejects the arguments first, in which
case it is a Validation Error.  For `coinglass_raw_get` the error kind is
pinned by the shape of `params`: a Configuration Error exactly when
`params` carries no string interval or one that passes validation, and a
Validation Error exactly when the string interval fails validation;
likewise for `btc_etf_flows_history` and its interval argument. -/
theorem no_key_no_network (env : Env)
    (h : env.apiKey = none ∨ env.apiKey = some "") (up : Upstream)
    (path : String) (params : Option (List (String × JsonVal)))
    (symbol interval : String) :
    ((coinglass_raw_get env up path params).requests = [] ∧
      (∀ s, dictGet (match params with | none => [] | some d => d)
          "interval" = some (JsonVal.str s) →
        (validate_interval (some s) = .ok () →
          (coinglass_raw_get env up path params).outcome =
            .error .configError) ∧
        (validate_interval (some s) = .error .validationError →
          (coinglass_raw_get env up path params).outcome =
            .error .validationError)) ∧
      (dictGet (match params with | none => [] | some d => d)
          "interval" = none →
        (coinglass_raw_get env up path params).outcome =
          .error .configError) ∧
      (∀ v, dictGet (match params with | none => [] | some d => d)
          "interval" = some v → (∀ s, v ≠ JsonVal.str s) →
        (coinglass_raw_get env up path params).outcome =
          .error .configError)) ∧
    futures_open_interest_exchange_list env up symbol =
      { requests := [], outcome := .error .configError } ∧
    funding_rate_exchange_list env up symbol =
      { requests := [], outcome := .error .configError } ∧
    ((btc_etf_flows_history env up interval).requests = [] ∧
      (validate_interval (some interval) = .ok () →
        (btc_etf_flows_history env up interval).outcome =
          .error .configError) ∧
      (validate_interval (some interval) = .error .validationError →
        (btc_etf_flows_history env up interval).outcome =
          .error .validationError)) := by
  have hget : ∀ p q, coinglass_get env up p q =
      { requests := [], outcome := .error .configError } :=
    fun p q => coinglass_get_noKey env up p q h
  refine ⟨⟨?_, ?_, ?_, ?_⟩, ?_, ?_, ?_, ?_, ?_⟩
  · cases hdg : dictGet (match params with | none => [] | some d => d)
        "interval" with
    | none => simp [coinglass_raw_get, hdg, hget]
    | some v =>
      cases v
      case str s =>
        rcases validate_interval_cases (some s) with hv | hv <;>
          simp [coinglass_raw_get, hdg, hv, hget]
      all_goals simp [coinglass_raw_get, hdg, hget]
  · intro s hdg
    constructor
    · intro hv
      simp [coinglass_raw_get, hdg, hv, hget]
    · intro hv
      simp [coinglass_raw_get, hdg, hv, hget]
  · intro hdg
    simp [coinglass_raw_get, hdg, hget]
  · intro v hdg hv
    cases v
    case str s => exact absurd rfl (hv s)
    all_goals simp [coinglass_raw_get, hdg, hget]
  · simp [futures_open_interest_exchange_list, hget]
  · simp [funding_rate_exchange_list, hget]
  · rcases validate_interval_cases (some interval) with hv | hv <;>
      simp [btc_etf_flows_history, hv, hget]
  · intro hv
    simp [btc_etf_flows_history, hv, hget]
  · intro hv
    simp [btc_etf_flows_history, hv, hget]

/-- Witness for the amended C1: with the key unset, benign arguments give
exactly a Configuration Error, while a disallowed interval gives exactly
a Validation Error. -/
theorem no_key_no_network_witness :
    (coinglass_raw_get envNoKey up200 "/api/index/fear-greed-history"
        none).outcome = .error .configError ∧
    futures_open_interest_exchange_list envNoKey up200 "BTCUSDT" =
      { requests := [], outcome := .error .configError } ∧
    (btc_etf_flows_history envNoKey up200 "1d").outcome =
      .error .configError ∧
    (coinglass_raw_get envNoKey up200 "/api/index/fear-greed-history"
        (some [("interval", JsonVal.str "1m")])).outcome =
      .error .validationError :=
  ⟨(no_key_no_network envNoKey (Or.inl rfl) up200
      "/api/index/fear-greed-history" none "BTCUSDT" "1d").1.2.2.1 rfl,
   (no_key_no_network envNoKey (Or.inl rfl) up200
      "/api/index/fear-greed-history" none "BTCUSDT" "1d").2.1,
   ((no_key_no_network envNoKey (Or.inl rfl) up200
      "/api/index/fear-greed-history" none "BTCUSDT" "1d").2.2.2).2.1 rfl,
   ((no_key_no_network envNoKey (Or.inl rfl) up200
      "/api/index/fear-greed-history"
      (some [("interval", JsonVal.str "1m")]) "BTCUSDT" "1d").1.2.1 "1m"
      rfl).2 rfl⟩

/-- C5: a path without a leading slash produces the same call (hence the
same outbound URL) as the slash-prefixed path, and every constructed URL
is the fixed base origin followed by a path starting with `/`. -/
theorem path_normalization (env : Env) (up : Upstream) (path : String)
    (params : Option (List (String × JsonVal)))
    (h : pyStartsWith path "/" = false) :
    coinglass_get env up path params =
      coinglass_get env up ("/" ++ path) params ∧
    ∀ q : String, ∀ req ∈ (coinglass_get env up q params).requests,
      ∃ p, req.url = BASE_URL ++ p ∧ pyStartsWith p "/" = true := by
  constructor
  · simp [coinglass_get, h, startsWith_slash_append]
  · intro q req hreq
    rcases henv : env.apiKey with _ | k
    · rw [coinglass_get_noKey env up q params (Or.inl henv)] at hreq
      simp at hreq
    · by_cases hk : k = ""
      · subst hk
        rw [coinglass_get_noKey env up q params (Or.inr henv)] at hreq
        simp at hreq
      · rw [coinglass_get_withKey env up k henv hk q params] at hreq
        simp at hreq
        subst hreq
        by_cases hq : pyStartsWith q "/" = true
        · exact ⟨q, by simp [hq], hq⟩
        · refine ⟨"/" ++ q, ?_, startsWith_slash_append q⟩
          simp [hq]

/-- Witness for C5 at a concrete slash-less path. -/
theorem path_normalization_witness :
    coinglass_get envWithKey up200
        "api/futures/open-interest/exchange-list" none =
      coinglass_get envWithKey up200
        ("/" ++ "api/futures/open-interest/exchange-list") none ∧
    ∀ q : String,
      ∀ req ∈ (coinglass_get envWithKey up200 q none).requests,
        ∃ p, req.url = BASE_URL ++ p ∧ pyStartsWith p "/" = true :=
  path_normalization envWithKey up200
    "api/futures/open-interest/exchange-list" none (by decide)

/-- The mocked non-2xx response of the spec's test scenario. -/
def resp500 : HttpResponse :=
  { status := 500, text := "internal error", json := none }

/-- C4: a non-2xx upstream response yields the Transport Error carrying
the numeric status code and the raw body text; its message includes
both. -/
theorem non2xx_transport_error (env : Env) (resp : HttpResponse)
    (path : String) (params : Option (List (String × JsonVal)))
    (k : String) (hkey : env.apiKey = some k) (hk : k ≠ "")
    (hstatus : resp.status < 200 ∨ 300 ≤ resp.status) :
    (coinglass_get env (constUpstream resp) path params).outcome =
      .error (.httpStatusError resp.status resp.text) ∧
    (∃ a b, httpErrorMessage resp.status resp.text =
        a ++ toString resp.status ++ b) ∧
    (∃ a b, httpErrorMessage resp.status resp.text =
        a ++ resp.text ++ b) := by
  refine ⟨?_, ⟨"HTTP error from CoinGlass: ", " " ++ resp.text, ?_⟩,
    ⟨"HTTP error from CoinGlass: " ++ toString resp.status ++ " ", "", ?_⟩⟩
  · rw [coinglass_get_withKey env (constUpstream resp) k hkey hk path params]
    simp [constUpstream, processResponse, hstatus]
  · simp [httpErrorMessage, String.append_assoc]
  · simp [httpErrorMessage, String.append_assoc]

/-- Witness for C4 at the HTTP 500 / `"internal error"` scenario. -/
theorem non2xx_transport_error_witness :
    (coinglass_get envWithKey (constUpstream resp500) "/api/x" none).outcome
        = .error (.httpStatusError 500 "internal error") ∧
    (∃ a b, httpErrorMessage 500 "internal error" =
        a ++ toString 500 ++ b) ∧
    (∃ a b, httpErrorMessage 500 "internal error" =
        a ++ "internal error" ++ b) :=
  non2xx_transport_error envWithKey resp500 "/api/x" none "testkey" rfl
    (by decide) (Or.inr (by decide))

/-- A 2xx response whose body is not valid JSON. -/
def respNotJson : HttpResponse :=
  { status := 200, text := "not json", json := none }

/-- C6: a 2xx response whose body fails to parse as JSON makes the
forwarder fail with the malformed-payload Transport Error; no value is
returned. -/
theorem malformed_json_transport_error (env : Env) (resp : HttpResponse)
    (path : String) (params : Option (List (String × JsonVal)))
    (k : String) (hkey : env.apiKey = some k) (hk : k ≠ "")
    (hstatus : 200 ≤ resp.status ∧ resp.status < 300)
    (hjson : resp.json = none) :
    (coinglass_get env (constUpstream resp) path params).outcome =
      .error .jsonDecodeError := by
  have hs : ¬(resp.status < 200 ∨ 300 ≤ resp.status) := by omega
  rw [coinglass_get_withKey env (constUpstream resp) k hkey hk path params]
  simp [constUpstream, processResponse, hs, hjson]

/-- Witness for C6 at a 200 response with a non-JSON body. -/
theorem malformed_json_transport_error_witness :
    (coinglass_get envWithKey (constUpstream respNotJson) "/api/x"
        none).outcome = .error .jsonDecodeError :=
  malformed_json_transport_error envWithKey respNotJson "/api/x" none
    "testkey" rfl (by decide) (by decide) rfl

/-- A 200 response parsing to the object with a single `code` field whose
value is the boolean `false`. -/
def respCodeFalse : HttpResponse :=
  { status := 200, text := "\x7b\x22code\x22: false\x7d",
    json := some (.obj [("code", .bool false)]) }

/-- C3 counterexample: for a 200 response parsing to the object
`code ↦ false`, the `code` value is present and is neither the number `0`
nor the string `"0"`, yet the forwarder returns the value unchanged
instead of failing with an Application Error: Python's membership test
`in (0, "0")` treats the boolean `False` as equal to `0`. -/
theorem code_envelope_counterexample :
    (coinglass_get envWithKey (constUpstream respCodeFalse) "/api/x"
        none).outcome = .ok (.obj [("code", JsonVal.bool false)]) ∧
    dictGet [("code", JsonVal.bool false)] "code" =
      some (JsonVal.bool false) ∧
    JsonVal.bool false ≠ JsonVal.int 0 ∧
    JsonVal.bool false ≠ JsonVal.str "0" := by
  refine ⟨rfl, rfl, ?_, ?_⟩ <;> (intro h; cases h)

/-- C3 (amended): for every 200 response parsing to a JSON value `v`, the
forwarder fails with an Application Error carrying the `code` value and
the `msg` field exactly when `v` is an object whose `code` value compares
unequal, under Python equality, to both the number `0` and the string
`"0"` (so a boolean `false` code counts as success, since `False == 0` in
Python); in every other case it returns `v` unchanged. -/
theorem code_envelope_check (env : Env) (resp : HttpResponse)
    (path : String) (params : Option (List (String × JsonVal)))
    (k : String) (v : JsonVal)
    (hkey : env.apiKey = some k) (hk : k ≠ "")
    (hstatus : resp.status = 200) (hjson : resp.json = some v) :
    (∀ kvs c, v = .obj kvs → dictGet kvs "code" = some c →
      (pyEqIntZero c || pyEqStrZero c) = false →
      (coinglass_get env (constUpstream resp) path params).outcome =
        .error (.apiError c (dictGet kvs "msg"))) ∧
    (∀ kvs c, v = .obj kvs → dictGet kvs "code" = some c →
      (pyEqIntZero c || pyEqStrZero c) = true →
      (coinglass_get env (constUpstream resp) path params).outcome =
        .ok v) ∧
    (∀ kvs, v = .obj kvs → dictGet kvs "code" = none →
      (coinglass_get env (constUpstream resp) path params).outcome =
        .ok v) ∧
    ((∀ kvs, v ≠ .obj kvs) →
      (coinglass_get env (constUpstream resp) path params).outcome =
        .ok v) := by
  have hs : ¬(resp.status < 200 ∨ 300 ≤ resp.status) := by omega
  rw [coinglass_get_withKey env (constUpstream resp) k hkey hk path params]
  refine ⟨?_, ?_, ?_, ?_⟩
  · intro kvs c hv hc hz
    subst hv
    simp [constUpstream, processResponse, hs, hjson, hc, hz]
  · intro kvs c hv hc hz
    subst hv
    simp [constUpstream, processResponse, hs, hjson, hc, hz]
  · intro kvs hv hc
    subst hv
    simp [constUpstream, processResponse, hs, hjson, hc]
  · intro hv
    cases v
    case obj kvs => exact absurd rfl (hv kvs)
    all_goals simp [constUpstream, processResponse, hs, hjson]

/-- A 200 response with the spec's failing envelope
`code ↦ "40001", msg ↦ "bad symbol"`. -/
def respCode40001 : HttpResponse :=
  { status := 200,
    text := "\x7b\x22code\x22: \x2240001\x22, \x22msg\x22: \x22bad symbol\x22\x7d",
    json := some (.obj [("code", .str "40001"), ("msg", .str "bad symbol")]) }

/-- Witness for the amended C3 at the `code = "40001"` scenario. -/
theorem code_envelope_check_witness :
    (coinglass_get envWithKey (constUpstream respCode40001) "/api/x"
        none).outcome =
      .error (.apiError (JsonVal.str "40001")
        (some (JsonVal.str "bad symbol"))) :=
  (code_envelope_check envWithKey respCode40001 "/api/x" none "testkey"
      (.obj [("code", JsonVal.str "40001"),
        ("msg", JsonVal.str "bad symbol")])
      rfl (by decide) rfl rfl).1
    [("code", JsonVal.str "40001"), ("msg", JsonVal.str "bad symbol")]
    (JsonVal.str "40001") rfl rfl (by decide)

/-- C7 counterexample: `futures_open_interest_exchange_list` passes a
lowercase symbol through unchanged; the outbound parameter mapping
carries `"btc"`, not the uppercase `"BTC"`. -/
theorem symbol_uppercase_counterexample :
    (futures_open_interest_exchange_list envWithKey up200 "btc").requests =
      [{ url := BASE_URL ++ "/api/futures/open-interest/exchange-list",
         params := some [("symbol", JsonVal.str "btc")],
         apiKey := "testkey" }] ∧
    ("btc" : String) ≠ "BTC" := by
  constructor
  · rfl
  · decide

/-- C7 (amended): the convenience tools place the symbol argument in the
parameter mapping exactly as supplied, with no uppercase
normalization. -/
theorem symbol_passed_verbatim (env : Env) (up : Upstream)
    (symbol k : String) (hkey : env.apiKey = some k) (hk : k ≠ "") :
    (futures_open_interest_exchange_list env up symbol).requests.map
        Request.params = [some [("symbol", JsonVal.str symbol)]] ∧
    (funding_rate_exchange_list env up symbol).requests.map
        Request.params = [some [("symbol", JsonVal.str symbol)]] := by
  constructor <;>
    simp [futures_open_interest_exchange_list, funding_rate_exchange_list,
      coinglass_get_withKey env up k hkey hk]

/-- Witness for the amended C7 at a lowercase symbol. -/
theorem symbol_passed_verbatim_witness :
    (futures_open_interest_exchange_list envWithKey up200
        "btcusdt").requests.map Request.params =
      [some [("symbol", JsonVal.str "btcusdt")]] ∧
    (funding_rate_exchange_list envWithKey up200
        "btcusdt").requests.map Request.params =
      [some [("symbol", JsonVal.str "btcusdt")]] :=
  symbol_passed_verbatim envWithKey up200 "btcusdt" "testkey" rfl
    (by decide)

/-- C8: tool calls are deterministic functions of the configuration, the
arguments and the upstream responses: two invocations of the same tool
with identical arguments against upstreams that answer every request
identically produce identical results (no hidden local state). -/
theorem tool_calls_deterministic (env : Env) (up1 up2 : Upstream)
    (h : ∀ req, up1 req = up2 req) (path : String)
    (params : Option (List (String × JsonVal)))
    (symbol interval : String) :
    coinglass_raw_get env up1 path params =
      coinglass_raw_get env up2 path params ∧
    futures_open_interest_exchange_list env up1 symbol =
      futures_open_interest_exchange_list env up2 symbol ∧
    funding_rate_exchange_list env up1 symbol =
      funding_rate_exchange_list env up2 symbol ∧
    btc_etf_flows_history env up1 interval =
      btc_etf_flows_history env up2 interval := by
  have hup : up1 = up2 := funext h
  subst hup
  exact ⟨rfl, rfl, rfl, rfl⟩

/-- Witness for C8: the same call repeated against the same mocked
upstream. -/
theorem tool_calls_deterministic_witness :
    coinglass_raw_get envWithKey up200 "/api/index/fear-greed-history"
        none =
      coinglass_raw_get envWithKey up200 "/api/index/fear-greed-history"
        none ∧
    futures_open_interest_exchange_list envWithKey up200 "BTCUSDT" =
      futures_open_interest_exchange_list envWithKey up200 "BTCUSDT" ∧
    funding_rate_exchange_list envWithKey up200 "BTCUSDT" =
      funding_rate_exchange_list envWithKey up200 "BTCUSDT" ∧
    btc_etf_flows_history envWithKey up200 "1d" =
      btc_etf_flows_history envWithKey up200 "1d" :=
  tool_calls_deterministic envWithKey up200 up200 (fun _ => rfl)
    "/api/index/fear-greed-history" none "BTCUSDT" "1d"

end Coinglass
